import Mathlib

/-!
Verification development for the v8eval embedding layer
(src/src/v8eval.h, src/src/v8eval.cxx).

The development shallowly embeds the parts of the code the claims are
about:

* the outbound debug-message queue (`std::list<std::string> msg_queue_`)
  together with its producer `DbgSrv::recv_from_debugger_` and its
  consumer `DbgSrv::send_to_socket_`;
* the bridge state machine (`DbgSrv::status_`, the handle fields of
  `DbgSrv`) with `DbgSrv::accept_`, `DbgSrv::recv_from_socket_`,
  `DbgSrv::start`, the constructor and the destructor;
* the `_V8` debug channel (`callback_`, `debugger_init`, `debugger_send`,
  `debugger_stop`, `debugger_message_handler`);
* the `_V8` evaluation facade (`new_context`, `eval`, `call`) over an
  abstract interface standing for the embedded engine (compilation,
  script execution, JSON parse and stringify are external collaborators
  of this repository and are kept as parameters).

Machine effects (socket writes, async wakeups, thread joins) are made
explicit as returned data: a function that issues writes returns the
list of writes it issues, in order, and the straight-line destructor is
embedded as the trace of teardown actions it performs.
-/

namespace v8eval

/-- Outbound debug-protocol frames are opaque text. -/
abbrev Msg := String

/-- The field `std::list<std::string> msg_queue_` of `DbgSrv`.
The head of the Lean list is the front of the `std::list`. -/
abbrev MsgQueue := List Msg

/-- Embedding of `DbgSrv::recv_from_debugger_` (v8eval.cxx:313-318): the
engine debug callback pushes the message at the front of `msg_queue_`
(`push_front`) and then signals the send-wake handle
(`uv_async_send(&db->dbgsrv_send_)`); the returned Bool records that the
wake was signaled. -/
def recv_from_debugger_ (s : Msg) (q : MsgQueue) : MsgQueue × Bool :=
  (s :: q, true)

/-- Queue contents after the debug callback fired once per message of
`msgs`, in that production order, starting from queue `q`. -/
def pushAll (msgs : List Msg) (q : MsgQueue) : MsgQueue :=
  List.foldl (fun acc m => (recv_from_debugger_ m acc).1) q msgs

/-- Embedding of `DbgSrv::send_to_socket_` (v8eval.cxx:320-333): the
send-wake handler loops while `msg_queue_` is nonempty, each iteration
reading `msg_queue_.back()`, issuing exactly one `uv_write` for it, and
then `msg_queue_.pop_back()`. It returns the list of writes issued, in
issue order, together with the queue it leaves behind. -/
def send_to_socket_ (q : MsgQueue) : List Msg × MsgQueue :=
  if h : q = [] then ([], q)
  else
    let w := q.getLast h
    let rest := send_to_socket_ q.dropLast
    (w :: rest.1, rest.2)
termination_by q.length
decreasing_by
  have hpos : 0 < q.length := List.length_pos.mpr h
  simp [List.length_dropLast]
  omega

theorem pushAll_nil_eq_reverse (msgs : List Msg) (q : MsgQueue) :
    pushAll msgs q = msgs.reverse ++ q := by
  induction msgs generalizing q with
  | nil => simp [pushAll]
  | cons m ms ih =>
    simp only [pushAll, List.foldl_cons, recv_from_debugger_] at *
    rw [ih]
    simp

theorem send_to_socket_eq (q : MsgQueue) :
    send_to_socket_ q = (q.reverse, []) := by
  induction q using List.reverseRecOn with
  | nil => rw [send_to_socket_]; simp
  | append_singleton l a ih =>
    rw [send_to_socket_]
    have hne : l ++ [a] ≠ [] := by simp
    rw [dif_neg hne]
    simp [List.getLast_append, ih]

/-- C1: FIFO relay of outbound debug messages.  If the engine debug
callback (`DbgSrv::recv_from_debugger_`) produced and queued the
messages `m1..mn` in that order, then a firing of the send-wake handler
`DbgSrv::send_to_socket_` pops every queued message (the queue it
leaves is empty), issues exactly one socket write per message, and the
write order equals the production order `m1..mn`. -/
theorem fifo_relay (msgs : List Msg) :
    (send_to_socket_ (pushAll msgs [])).1 = msgs ∧
    (send_to_socket_ (pushAll msgs [])).2 = [] ∧
    (send_to_socket_ (pushAll msgs [])).1.length = msgs.length := by
  have hq : pushAll msgs [] = msgs.reverse := by
    rw [pushAll_nil_eq_reverse]; simp
  rw [hq, send_to_socket_eq]
  simp

/-!
The `_V8` debug channel: the fields `callback_` / `callbackopq_` and the
methods `debugger_init`, `debugger_send`, `debugger_stop`, and the
static `debugger_message_handler`.  The identity of the registered C
callback is abstracted to a `Nat` tag; `v8::Debug::SendCommand` is an
external engine facility, modelled (following the spec) as appending the
command to the pending debug channel. -/

/-- Debug-channel state of a `_V8` instance: the `callback_` field (a
registered outbound callback, or `none` for the null pointer) and the
commands pending in the engine debug channel. -/
structure V8Dbg where
  callback_ : Option Nat
  debugChannel : List String
deriving DecidableEq

/-- Embedding of `_V8::debugger_init` (v8eval.cxx:198-216): fails when a
callback is already registered, otherwise registers `cb`.  (The creation
of `dbg_isolate_` and the engine-side `SetMessageHandler` call are
engine effects outside this state.) -/
def debugger_init (cb : Nat) (v : V8Dbg) : Bool × V8Dbg :=
  match v.callback_ with
  | some _ => (false, v)
  | none => (true, { v with callback_ := some cb })

/-- Embedding of `_V8::debugger_send` (v8eval.cxx:227-240): returns
`false` and does nothing when `callback_` is the null pointer, otherwise
forwards the command into the engine debug channel
(`v8::Debug::SendCommand`, modelled from the spec as an append to the
pending-command channel) and returns `true`. -/
def debugger_send (cmd : String) (v : V8Dbg) : Bool × V8Dbg :=
  match v.callback_ with
  | none => (false, v)
  | some _ => (true, { v with debugChannel := v.debugChannel ++ [cmd] })

/-- Embedding of `_V8::debugger_stop` (v8eval.cxx:242-249): deregisters
the callback (`SetMessageHandler(nullptr)`; `callback_ = nullptr`). -/
def debugger_stop (v : V8Dbg) : V8Dbg :=
  { v with callback_ := none }

/-- Embedding of `_V8::debugger_message_handler` (v8eval.cxx:188-196):
invoked by the engine with an outbound message, it calls the registered
callback on the message JSON when `callback_` is non-null and otherwise
does nothing.  The result is the list of callback invocations performed
(callback tag paired with the message). -/
def debugger_message_handler (msg : String) (v : V8Dbg) : List (Nat × String) :=
  match v.callback_ with
  | none => []
  | some cb => [(cb, msg)]

/-!
The `DbgSrv` bridge.  Its state keeps `status_`, `dbgsrv_port_`, and one
Bool per libuv handle or thread object recording whether that object has
been initialized/opened (`uv_tcp_init`, `uv_async_init`,
`uv_thread_create` set it; `uv_close` clears the open flags). -/

/-- The anonymous status enum of `DbgSrv` (v8eval.h:114-118). -/
inductive Status
  | dbgsrv_offline
  | dbgsrv_started
  | dbgsrv_connected
deriving DecidableEq

/-- State of a `DbgSrv` instance: connection status, recorded port, and
initialization/open flags of the libuv objects it owns. -/
structure DbgSrvSt where
  status_ : Status
  dbgsrv_port_ : Nat
  servOpen : Bool
  clntOpen : Bool
  sendOpen : Bool
  srvLoopInit : Bool
  srvStopInit : Bool
  srvThreadInit : Bool
  procLoopInit : Bool
  procProcInit : Bool
  procStopInit : Bool
  procThreadInit : Bool
deriving DecidableEq

/-- Embedding of the constructor `DbgSrv::DbgSrv` (v8eval.cxx:266-278):
port 0, status offline, the server loop initialized, and the whole
debug-process loop (loop, proc handle, stop handle, thread) initialized.
The server-loop stop handle `dbgsrv_stop_` and the server thread
`dbgsrv_thread_` are NOT initialized here. -/
def mkDbgSrv : DbgSrvSt :=
  { status_ := Status.dbgsrv_offline
    dbgsrv_port_ := 0
    servOpen := false
    clntOpen := false
    sendOpen := false
    srvLoopInit := true
    srvStopInit := false
    srvThreadInit := false
    procLoopInit := true
    procProcInit := true
    procStopInit := true
    procThreadInit := true }

/-- Embedding of `DbgSrv::get_port` (v8eval.h:96): returns the
`dbgsrv_port_` field. -/
def get_port (db : DbgSrvSt) : Nat :=
  db.dbgsrv_port_

/-- Embedding of `DbgSrv::accept_` (v8eval.cxx:374-393).  `evStatus` is
the status argument libuv passes to the connection callback and
`acceptFails` the result of `uv_accept`.  On a nonnegative event status
the handler unconditionally runs `uv_tcp_init` on `dbgsrv_clnt_`,
accepts, installs the send-wake handle and the read callback, and sets
`status_ = dbgsrv_connected`; no check of the current `status_` is
performed anywhere.  The returned Bool records whether a client was
attached (`uv_accept` succeeded and callbacks were installed). -/
def accept_ (evStatus : Int) (acceptFails : Bool) (db : DbgSrvSt) :
    Bool × DbgSrvSt :=
  if evStatus < 0 then (false, db)
  else
    let db := { db with clntOpen := true }
    if acceptFails then (false, { db with clntOpen := false })
    else
      (true, { db with sendOpen := true, status_ := Status.dbgsrv_connected })

/-- Embedding of `DbgSrv::recv_from_socket_` (v8eval.cxx:342-360).
`nread` is the read result; `data` the bytes read when `nread > 0`.  On
`nread = 0` nothing happens; on `nread < 0` the handler closes the
send-wake handle and the client handle and sets `status_ =
dbgsrv_started`; otherwise it forwards the bytes to
`v8_.debugger_send` and signals the processing-loop wake handle
(returned Bool). -/
def recv_from_socket_ (nread : Int) (data : String) (db : DbgSrvSt)
    (v : V8Dbg) : DbgSrvSt × V8Dbg × Bool :=
  if nread = 0 then (db, v, false)
  else if nread < 0 then
    ({ db with sendOpen := false, clntOpen := false,
               status_ := Status.dbgsrv_started }, v, false)
  else
    (db, (debugger_send data v).2, true)

/-- Oracle for the OS/libuv outcomes that `DbgSrv::start` consults:
whether `uv_tcp_bind` fails, the port `uv_tcp_getsockname` reports (the
OS-assigned ephemeral port when binding port 0), whether
`uv_tcp_getsockname` fails, and whether `uv_listen` fails. -/
structure NetOS where
  bindFails : Bool
  sockPort : Nat
  getsocknameFails : Bool
  listenFails : Bool
deriving DecidableEq

/-- Embedding of `DbgSrv::start` (v8eval.cxx:417-453), with the paired
`_V8` debug-channel state threaded through for the
`v8_.debugger_init(recv_from_debugger_, this)` call.  Control flow
mirrors the source: `uv_tcp_init` on the server handle; return false on
bind failure; when `port = 0`, return false on getsockname failure and
otherwise record the OS-assigned port, else record `port` — in both
cases BEFORE the listen call; return false on listen failure; then
register the debug callback, set `status_ = dbgsrv_started`, initialize
the stop handle `dbgsrv_stop_` and create the server thread, and return
true. -/
def start (os : NetOS) (port : Nat) (db : DbgSrvSt) (v : V8Dbg) :
    Bool × DbgSrvSt × V8Dbg :=
  let db := { db with servOpen := true }
  if os.bindFails then (false, db, v)
  else
    match
      (if port = 0 then
        (if os.getsocknameFails then none
         else some { db with dbgsrv_port_ := os.sockPort })
       else some { db with dbgsrv_port_ := port }) with
    | none => (false, db, v)
    | some db =>
      if os.listenFails then (false, db, v)
      else
        let v := (debugger_init 0 v).2
        (true,
         { db with status_ := Status.dbgsrv_started,
                   srvStopInit := true, srvThreadInit := true }, v)

/-- The libuv objects owned by `DbgSrv` (v8eval.h:122-132). -/
inductive Handle
  | dbgsrv_serv
  | dbgsrv_clnt
  | dbgsrv_send
  | dbgsrv_stop
  | dbgsrv_thread
  | dbgsrv_loop
  | dbgproc_proc
  | dbgproc_stop
  | dbgproc_thread
  | dbgproc_loop
deriving DecidableEq, BEq

/-- Teardown actions of the destructor. -/
inductive Ev
  | debugger_stop
  | async_send (h : Handle)
  | thread_join (h : Handle)
  | loop_close (h : Handle)
deriving DecidableEq, BEq

/-- Embedding of the destructor `DbgSrv::~DbgSrv` (v8eval.cxx:280-292)
as the trace of actions its straight-line body performs, in program
order: `v8_.debugger_stop()`, then stop and join the server (network)
loop, then stop and join the debug-process loop. -/
def destructorTrace : List Ev :=
  [ Ev.debugger_stop,
    Ev.async_send Handle.dbgsrv_stop,
    Ev.thread_join Handle.dbgsrv_thread,
    Ev.loop_close Handle.dbgsrv_loop,
    Ev.async_send Handle.dbgproc_stop,
    Ev.thread_join Handle.dbgproc_thread,
    Ev.loop_close Handle.dbgproc_loop ]

/-!
The `_V8` evaluation facade.  Script compilation, script execution, the
global-object property lookup and the JSON parse/stringify built-ins
belong to the embedded engine, an external collaborator of this
repository; they are kept abstract as an `EngineOps` record.  Failure of
an engine step carries the exception text that
`to_std_string(try_catch.Exception())` would render.  A
`v8::Local<v8::Context>` is a `Nat` identifier and the isolate keeps the
global-object state (`Store`) of each live context. -/

/-- Abstract interface of the embedded engine, as `_V8::eval` and
`_V8::call` use it: `compile` is `v8::Script::Compile`, `runScript` is
`script->Run` on the store of the active context, `jsonStringifyV` is
the `JSON.stringify` call in `_V8::json_stringify` (`none` when
stringification fails, in which case the source returns the empty
string), `jsonParseV` is the `JSON.parse` call in `_V8::json_parse`
(`none` when parsing throws, i.e. the v8 result handle is empty),
`globalGet` is `context->Global()->Get`, `isFunction` and `isArray` are
`Value::IsFunction` / `Value::IsArray`, `applyCall` is the
`function.apply(function, arguments)` invocation, and `freshStore` is
the empty global state `v8::Context::New` creates. -/
structure EngineOps (Script Value Store : Type) : Type where
  compile : String → Except String Script
  runScript : Script → Store → Except String (Value × Store)
  jsonStringifyV : Value → Option String
  jsonParseV : Store → String → Option Value
  isArray : Value → Bool
  globalGet : Store → String → Except String Value
  isFunction : Value → Bool
  applyCall : Value → Value → Store → Except String (Value × Store)
  freshStore : Store

/-- Context-related state of a `_V8` instance: the persistent handle
`context_` (`none` when the handle is empty), the global-object state of
each live context, and a counter for fresh context identifiers. -/
structure V8Ctx (Store : Type) where
  context_ : Option Nat
  heap : Nat → Store
  nextCtx : Nat

/-- Embedding of `_V8::new_context` (v8eval.cxx:80-87): when `context_`
is empty, create a fresh context (`v8::Context::New` with a new empty
global template); otherwise return the context stored in `context_`. -/
def new_context {Script Value Store : Type} (E : EngineOps Script Value Store)
    (v : V8Ctx Store) : Nat × V8Ctx Store :=
  match v.context_ with
  | some c => (c, v)
  | none =>
    (v.nextCtx,
     { v with
        heap := fun i => if i = v.nextCtx then E.freshStore else v.heap i,
        nextCtx := v.nextCtx + 1 })

/-- Embedding of the constructor `_V8::_V8` (v8eval.cxx:59-72), its
context-related part: starting from an empty `context_`, it runs
`context_.Reset(isolate_, new_context())`, storing the context that
`new_context` freshly created. -/
def mkV8 {Script Value Store : Type} (E : EngineOps Script Value Store) :
    V8Ctx Store :=
  let v0 : V8Ctx Store :=
    { context_ := none, heap := fun _ => E.freshStore, nextCtx := 0 }
  { (new_context E v0).2 with context_ := some (new_context E v0).1 }

/-- The global-object state of the context that `_V8::eval` and
`_V8::call` obtain from their `new_context()` call. -/
def ctxStore {Script Value Store : Type} (E : EngineOps Script Value Store)
    (v : V8Ctx Store) : Store :=
  (new_context E v).2.heap (new_context E v).1

/-- The apostrophe character, as it appears in the TypeError messages of
`_V8::call`. -/
def sq : String := String.singleton (Char.ofNat 39)

/-- Embedding of `_V8::eval` (v8eval.cxx:125-152): obtain the context
via `new_context`, compile the source; on compile failure return the
exception text; on run failure return the exception text; on success
return `to_std_string(json_stringify(context, result))`, where
`json_stringify` yields the empty string when `JSON.stringify` fails.
The function is total into `String`: every failure path produces text,
none raises. -/
def eval {Script Value Store : Type} (E : EngineOps Script Value Store)
    (v : V8Ctx Store) (src : String) : String × V8Ctx Store :=
  match E.compile src with
  | Except.error exc => (exc, (new_context E v).2)
  | Except.ok script =>
    match E.runScript script (ctxStore E v) with
    | Except.error exc => (exc, (new_context E v).2)
    | Except.ok vr =>
      ((E.jsonStringifyV vr.1).getD "",
       { (new_context E v).2 with
          heap := fun i =>
            if i = (new_context E v).1 then vr.2
            else (new_context E v).2.heap i })

/-- Embedding of `_V8::call` (v8eval.cxx:154-186): obtain the context
via `new_context`; look `func` up on the global object (exception text
on a throwing lookup); when the value is not a function return the
TypeError naming `func`; parse `args` with `JSON.parse` and when the
parse throws (empty handle) or the value is not an array return the
TypeError naming `args`; otherwise run `function.apply(function,
arguments)` and return the exception text on failure or the
JSON-stringified result on success. -/
def call {Script Value Store : Type} (E : EngineOps Script Value Store)
    (v : V8Ctx Store) (func args : String) : String × V8Ctx Store :=
  match E.globalGet (ctxStore E v) func with
  | Except.error exc => (exc, (new_context E v).2)
  | Except.ok fval =>
    if E.isFunction fval = false then
      ("TypeError: " ++ sq ++ func ++ sq ++ " is not a function",
       (new_context E v).2)
    else
      match E.jsonParseV (ctxStore E v) args with
      | none =>
        ("TypeError: " ++ sq ++ args ++ sq ++ " is not an array",
         (new_context E v).2)
      | some arguments =>
        if E.isArray arguments = false then
          ("TypeError: " ++ sq ++ args ++ sq ++ " is not an array",
           (new_context E v).2)
        else
          match E.applyCall fval arguments (ctxStore E v) with
          | Except.error exc => (exc, (new_context E v).2)
          | Except.ok vr =>
            ((E.jsonStringifyV vr.1).getD "",
             { (new_context E v).2 with
                heap := fun i =>
                  if i = (new_context E v).1 then vr.2
                  else (new_context E v).2.heap i })

/-!
A concrete instance of `EngineOps` used to exercise the facade on the
example scripts the spec names.  The embedded engine itself (its parser,
interpreter and JSON built-ins) is not part of this repository, so this
instance is modelled from the spec, restricted to the fragment the
examples need. -/

/-- Modelled from the spec: expressions of the miniature scripting
engine — integer literals, top-level variables, addition. -/
inductive MiniExpr
  | lit (n : Int)
  | readVar (x : String)
  | add (a b : MiniExpr)
deriving DecidableEq

/-- Modelled from the spec: compiled scripts of the miniature engine — a
top-level assignment (which, as in the modelled language, evaluates to
the assigned value) or a bare expression. -/
inductive MiniScript
  | assign (x : String) (e : MiniExpr)
  | expr (e : MiniExpr)
deriving DecidableEq

/-- Modelled from the spec: values of the miniature engine — numbers,
the undefined value (what a global lookup of an absent binding yields),
arrays of numbers, and the built-in function Math.max. -/
inductive MiniVal
  | num (n : Int)
  | undef
  | arr (l : List Int)
  | fnMathMax
deriving DecidableEq

/-- Modelled from the spec: the global-object state of a context in the
miniature engine — the numeric top-level bindings, newest first. -/
abbrev MiniStore := List (String × Int)

/-- Modelled from the spec: expression evaluation; reading an unbound
variable is a runtime error reported as exception text. -/
def miniEvalExpr (st : MiniStore) : MiniExpr → Except String Int
  | MiniExpr.lit n => Except.ok n
  | MiniExpr.readVar x =>
    match st.lookup x with
    | some n => Except.ok n
    | none => Except.error ("ReferenceError: " ++ x ++ " is not defined")
  | MiniExpr.add a b =>
    match miniEvalExpr st a, miniEvalExpr st b with
    | Except.ok m, Except.ok n => Except.ok (m + n)
    | Except.error e, _ => Except.error e
    | _, Except.error e => Except.error e

/-- Modelled from the spec: script execution; an assignment adds the
binding to the global store of the context and evaluates to the
assigned value. -/
def miniRun (s : MiniScript) (st : MiniStore) :
    Except String (MiniVal × MiniStore) :=
  match s with
  | MiniScript.assign x e =>
    match miniEvalExpr st e with
    | Except.ok n => Except.ok (MiniVal.num n, (x, n) :: st)
    | Except.error exc => Except.error exc
  | MiniScript.expr e =>
    match miniEvalExpr st e with
    | Except.ok n => Except.ok (MiniVal.num n, st)
    | Except.error exc => Except.error exc

/-- Modelled from the spec: compilation, defined on the source texts the
spec examples use; any other text is a compile error. -/
def miniCompile : String → Except String MiniScript
  | "x = 1" => Except.ok (MiniScript.assign "x" (MiniExpr.lit 1))
  | "x + 1" =>
    Except.ok (MiniScript.expr (MiniExpr.add (MiniExpr.readVar "x") (MiniExpr.lit 1)))
  | s => Except.error ("SyntaxError: Unexpected token: " ++ s)

/-- Modelled from the spec: JSON.stringify of the miniature engine
(functions have no JSON encoding). -/
def miniStringify : MiniVal → Option String
  | MiniVal.num n => some (toString n)
  | MiniVal.undef => some "undefined"
  | MiniVal.arr l =>
    some ("[" ++ String.intercalate "," (l.map toString) ++ "]")
  | MiniVal.fnMathMax => none

/-- Modelled from the spec: JSON.parse of the miniature engine, defined
on the argument texts the spec examples use; any other text throws
(yields an empty handle). -/
def miniParse (_st : MiniStore) : String → Option MiniVal
  | "[]" => some (MiniVal.arr [])
  | "[1, 2]" => some (MiniVal.arr [1, 2])
  | "1" => some (MiniVal.num 1)
  | _ => none

/-- Modelled from the spec: global-object property lookup — the built-in
callable Math.max, the numeric top-level bindings, and the undefined
value for absent names (a plain Get of an absent property succeeds and
yields undefined rather than throwing). -/
def miniGlobalGet (st : MiniStore) (name : String) : Except String MiniVal :=
  if name = "Math.max" then Except.ok MiniVal.fnMathMax
  else
    match st.lookup name with
    | some n => Except.ok (MiniVal.num n)
    | none => Except.ok MiniVal.undef

/-- Modelled from the spec: only Math.max is callable. -/
def miniIsFunction : MiniVal → Bool
  | MiniVal.fnMathMax => true
  | _ => false

/-- Modelled from the spec: array test. -/
def miniIsArray : MiniVal → Bool
  | MiniVal.arr _ => true
  | _ => false

/-- Modelled from the spec: function application — Math.max applied to a
nonempty numeric array folds the maximum; every other application is a
runtime TypeError. -/
def miniApply (f arguments : MiniVal) (st : MiniStore) :
    Except String (MiniVal × MiniStore) :=
  match f, arguments with
  | MiniVal.fnMathMax, MiniVal.arr (a :: l) =>
    Except.ok (MiniVal.num (l.foldl max a), st)
  | _, _ => Except.error "TypeError: value is not applicable"

/-- Modelled from the spec: the miniature engine packaged as the
abstract interface of the facade. -/
def miniEngine : EngineOps MiniScript MiniVal MiniStore :=
  { compile := miniCompile
    runScript := miniRun
    jsonStringifyV := miniStringify
    jsonParseV := miniParse
    isArray := miniIsArray
    globalGet := miniGlobalGet
    isFunction := miniIsFunction
    applyCall := miniApply
    freshStore := [] }

/-!
Concrete states used by counterexamples and witnesses. -/

/-- A bridge state with one client attached: status connected, listener,
client and send-wake handles open, server stop handle and thread
initialized by the preceding successful `start`. -/
def connectedSt : DbgSrvSt :=
  { mkDbgSrv with
      status_ := Status.dbgsrv_connected
      dbgsrv_port_ := 9222
      servOpen := true
      clntOpen := true
      sendOpen := true
      srvStopInit := true
      srvThreadInit := true }

/-- A debug-channel state with no registered callback and nothing
pending. -/
def idleV8 : V8Dbg := { callback_ := none, debugChannel := [] }

/-- OS oracle where `uv_tcp_bind` and `uv_tcp_getsockname` succeed, the
OS assigns ephemeral port 5000, and `uv_listen` fails. -/
def listenFailOS : NetOS :=
  { bindFails := false, sockPort := 5000, getsocknameFails := false,
    listenFails := true }

/-- OS oracle where `uv_tcp_bind` fails. -/
def bindFailOS : NetOS :=
  { bindFails := true, sockPort := 0, getsocknameFails := false,
    listenFails := false }

/-- C2 counterexample: with the bridge in the connected state, an
incoming connection event (status `0`, `uv_accept` succeeding) IS
accepted by `DbgSrv::accept_` — a further client is attached — because
`accept_` never consults `status_`.  This refutes the claim that the
accept path accepts a new connection only in the started state. -/
theorem accept_while_connected :
    connectedSt.status_ = Status.dbgsrv_connected ∧
    (accept_ 0 false connectedSt).1 = true ∧
    (accept_ 0 false connectedSt).2.status_ = Status.dbgsrv_connected := by
  decide

/-- C2 (amended): `DbgSrv::accept_` checks only the connection-event
status (and the `uv_accept` result), never the bridge state: whenever
the event status is nonnegative and `uv_accept` succeeds, it attaches
the client and sets the state to connected, for every starting state —
including a state that is already connected, whose current client
handle is then reused for the new connection. -/
theorem accept_ignores_status (ev : Int) (db : DbgSrvSt) (hev : 0 ≤ ev) :
    (accept_ ev false db).1 = true ∧
    (accept_ ev false db).2.status_ = Status.dbgsrv_connected ∧
    (accept_ ev false db).2.clntOpen = true ∧
    (accept_ ev false db).2.sendOpen = true := by
  have hlt : ¬ ev < 0 := not_lt.mpr hev
  simp [accept_, hlt]

/-- C2 witness: the amended statement at the concrete input of a
freshly constructed bridge and connection-event status 0. -/
theorem accept_ignores_status_witness :
    (accept_ 0 false mkDbgSrv).1 = true ∧
    (accept_ 0 false mkDbgSrv).2.status_ = Status.dbgsrv_connected ∧
    (accept_ 0 false mkDbgSrv).2.clntOpen = true ∧
    (accept_ 0 false mkDbgSrv).2.sendOpen = true :=
  accept_ignores_status 0 mkDbgSrv (by decide)

/-- C3: shutdown sequencing of `DbgSrv::~DbgSrv`.  The destructor trace
performs `v8_.debugger_stop()` first (index 0), then signals the network
loop stop handle and joins the network thread, and only after that
signals the processing loop stop handle and joins the processing thread
— network before processing.  Moreover, once `debugger_stop` has run,
the engine-side message handler performs no callback invocation into
the bridge: `debugger_message_handler` on the stopped state is empty. -/
theorem dtor_order_and_no_callbacks :
    destructorTrace.indexOf Ev.debugger_stop = 0 ∧
    destructorTrace.indexOf (Ev.async_send Handle.dbgsrv_stop) <
      destructorTrace.indexOf (Ev.thread_join Handle.dbgsrv_thread) ∧
    destructorTrace.indexOf (Ev.thread_join Handle.dbgsrv_thread) <
      destructorTrace.indexOf (Ev.async_send Handle.dbgproc_stop) ∧
    destructorTrace.indexOf (Ev.async_send Handle.dbgproc_stop) <
      destructorTrace.indexOf (Ev.thread_join Handle.dbgproc_thread) ∧
    (∀ (msg : String) (v : V8Dbg),
      debugger_message_handler msg (debugger_stop v) = []) := by
  refine ⟨by decide, by decide, by decide, by decide, ?_⟩
  intro msg v
  simp [debugger_message_handler, debugger_stop]

/-- C4: `_V8::debugger_send` returns false and leaves the state
unchanged when no outbound callback is registered — in particular right
after `debugger_stop` deregistered it — and when a callback is
registered it forwards the command text into the engine debug channel
and returns true. -/
theorem debugger_send_channel (cmd : String) (v : V8Dbg) :
    (v.callback_ = none → debugger_send cmd v = (false, v)) ∧
    (∀ cb, v.callback_ = some cb →
      (debugger_send cmd v).1 = true ∧
      (debugger_send cmd v).2.debugChannel = v.debugChannel ++ [cmd]) ∧
    (debugger_send cmd (debugger_stop v)).1 = false := by
  refine ⟨?_, ?_, ?_⟩
  · intro h; simp [debugger_send, h]
  · intro cb h; simp [debugger_send, h]
  · simp [debugger_send, debugger_stop]

/-- C4 witness: the theorem applied with no registered callback and
with callback tag 7 registered. -/
theorem debugger_send_channel_witness :
    debugger_send "step" idleV8 = (false, idleV8) ∧
    (debugger_send "step" { callback_ := some 7, debugChannel := [] }).1 = true ∧
    (debugger_send "step" { callback_ := some 7, debugChannel := [] }).2.debugChannel
      = [] ++ ["step"] := by
  refine ⟨(debugger_send_channel "step" idleV8).1 rfl, ?_, ?_⟩
  · exact ((debugger_send_channel "step" _).2.1 7 rfl).1
  · exact ((debugger_send_channel "step" _).2.1 7 rfl).2

/-- C5: persistent-scope invariant.  The constructor creates the
top-level context exactly once (the stored handle is context 0 and one
context was allocated), `new_context` returns the stored context
unchanged whenever the handle is non-empty — so every later eval/call
reuses the context created by the constructor — and on the modelled
engine the binding made by evaluate of the text x = 1 is visible to a
subsequent evaluate of the text x + 1, which yields the encoding of
2. -/
theorem persistent_context {Script Value Store : Type}
    (E : EngineOps Script Value Store) :
    (mkV8 E).context_ = some 0 ∧ (mkV8 E).nextCtx = 1 ∧
    (∀ (v : V8Ctx Store) (c : Nat), v.context_ = some c →
      new_context E v = (c, v)) ∧
    (eval miniEngine ((eval miniEngine (mkV8 miniEngine) "x = 1").2) "x + 1").1
      = "2" := by
  refine ⟨rfl, rfl, ?_, by decide⟩
  intro v c h
  simp [new_context, h]

/-- C5 witness: the theorem applied to the miniature engine, with the
non-empty-handle hypothesis discharged at the freshly constructed
instance. -/
theorem persistent_context_witness :
    new_context miniEngine (mkV8 miniEngine) = (0, mkV8 miniEngine) :=
  (persistent_context miniEngine).2.2.1 (mkV8 miniEngine) 0 rfl

/-- C6: for every source text and instance state, `_V8::eval` returns a
string (the embedding is a total function into `String`, so no failure
escapes the boundary): the engine-reported exception text on compile
failure, the engine-reported exception text on a runtime exception, and
the JSON encoding of the resulting value on success (the empty string
standing in when JSON.stringify itself fails, as in
`_V8::json_stringify`). -/
theorem eval_exception_to_text {Script Value Store : Type}
    (E : EngineOps Script Value Store) (v : V8Ctx Store) (src : String) :
    (∀ exc, E.compile src = Except.error exc → (eval E v src).1 = exc) ∧
    (∀ scr exc, E.compile src = Except.ok scr →
      E.runScript scr (ctxStore E v) = Except.error exc →
      (eval E v src).1 = exc) ∧
    (∀ scr val st2, E.compile src = Except.ok scr →
      E.runScript scr (ctxStore E v) = Except.ok (val, st2) →
      (eval E v src).1 = (E.jsonStringifyV val).getD "") := by
  refine ⟨?_, ?_, ?_⟩
  · intro exc h; simp [eval, h]
  · intro scr exc h1 h2; simp [eval, h1, h2]
  · intro scr val st2 h1 h2; simp [eval, h1, h2]

/-- C6 witness: the three cases of the theorem at concrete inputs of
the miniature engine — a runtime exception (unbound variable), a
success, and a compile failure. -/
theorem eval_exception_to_text_witness :
    (eval miniEngine (mkV8 miniEngine) "x + 1").1
      = "ReferenceError: x is not defined" ∧
    (eval miniEngine (mkV8 miniEngine) "x = 1").1 = "1" ∧
    (eval miniEngine (mkV8 miniEngine) "]]").1
      = "SyntaxError: Unexpected token: ]]" := by
  refine ⟨?_, ?_, ?_⟩
  · exact (eval_exception_to_text miniEngine (mkV8 miniEngine) "x + 1").2.1
      (MiniScript.expr (MiniExpr.add (MiniExpr.readVar "x") (MiniExpr.lit 1)))
      "ReferenceError: x is not defined" rfl rfl
  · have h := (eval_exception_to_text miniEngine (mkV8 miniEngine) "x = 1").2.2
      (MiniScript.assign "x" (MiniExpr.lit 1)) (MiniVal.num 1) [("x", 1)] rfl rfl
    rw [h]; decide
  · exact (eval_exception_to_text miniEngine (mkV8 miniEngine) "]]").1
      "SyntaxError: Unexpected token: ]]" rfl

/-- C7: `_V8::call` returns the TypeError naming `func` whenever the
global lookup of `func` yields a non-callable value (in particular the
undefined value a lookup of an absent binding yields); returns the
TypeError naming the argument text whenever the lookup yields a
callable but `args` does not parse (`JSON.parse` throws) or parses to a
non-array; and otherwise invokes the function on the decoded array,
returning the exception text on a runtime failure and the JSON encoding
of the result on success — the same convention as eval. -/
theorem call_type_mismatch {Script Value Store : Type}
    (E : EngineOps Script Value Store) (v : V8Ctx Store) (func args : String) :
    (∀ fv, E.globalGet (ctxStore E v) func = Except.ok fv →
      E.isFunction fv = false →
      (call E v func args).1
        = "TypeError: " ++ sq ++ func ++ sq ++ " is not a function") ∧
    (∀ fv, E.globalGet (ctxStore E v) func = Except.ok fv →
      E.isFunction fv = true →
      E.jsonParseV (ctxStore E v) args = none →
      (call E v func args).1
        = "TypeError: " ++ sq ++ args ++ sq ++ " is not an array") ∧
    (∀ fv a, E.globalGet (ctxStore E v) func = Except.ok fv →
      E.isFunction fv = true →
      E.jsonParseV (ctxStore E v) args = some a →
      E.isArray a = false →
      (call E v func args).1
        = "TypeError: " ++ sq ++ args ++ sq ++ " is not an array") ∧
    (∀ fv a, E.globalGet (ctxStore E v) func = Except.ok fv →
      E.isFunction fv = true →
      E.jsonParseV (ctxStore E v) args = some a →
      E.isArray a = true →
      (call E v func args).1
        = (match E.applyCall fv a (ctxStore E v) with
           | Except.error exc => exc
           | Except.ok vr => (E.jsonStringifyV vr.1).getD "")) := by
  refine ⟨?_, ?_, ?_, ?_⟩
  · intro fv h1 h2; simp [call, h1, h2]
  · intro fv h1 h2 h3; simp [call, h1, h2, h3]
  · intro fv a h1 h2 h3 h4; simp [call, h1, h2, h3, h4]
  · intro fv a h1 h2 h3 h4
    rcases happly : E.applyCall fv a (ctxStore E v) with exc | vr <;>
      simp [call, h1, h2, h3, h4, happly]

/-- C7 witness: the spec examples on the miniature engine — a call of
an absent binding with an empty array, a call of the callable Math.max
with a non-array argument text, and a successful call of Math.max. -/
theorem call_type_mismatch_witness :
    (call miniEngine (mkV8 miniEngine) "doesNotExist" "[]").1
      = "TypeError: " ++ sq ++ "doesNotExist" ++ sq ++ " is not a function" ∧
    (call miniEngine (mkV8 miniEngine) "Math.max" "not-an-array").1
      = "TypeError: " ++ sq ++ "not-an-array" ++ sq ++ " is not an array" ∧
    (call miniEngine (mkV8 miniEngine) "Math.max" "[1, 2]").1 = "2" := by
  refine ⟨?_, ?_, ?_⟩
  · exact (call_type_mismatch miniEngine (mkV8 miniEngine) "doesNotExist" "[]").1
      MiniVal.undef rfl rfl
  · exact (call_type_mismatch miniEngine (mkV8 miniEngine) "Math.max"
      "not-an-array").2.1 MiniVal.fnMathMax rfl rfl rfl
  · have h := (call_type_mismatch miniEngine (mkV8 miniEngine) "Math.max"
      "[1, 2]").2.2.2 MiniVal.fnMathMax (MiniVal.arr [1, 2]) rfl rfl rfl rfl
    rw [h]; decide

/-- C8 counterexample: a `start(0)` run in which bind and getsockname
succeed (the OS assigns port 5000) but listen fails.  `start` returns
false — the bridge is not listening — yet `get_port()` returns 5000,
not 0, because `DbgSrv::start` records `dbgsrv_port_` before the
`uv_listen` call and does not clear it on the listen-failure return. -/
theorem get_port_after_failed_listen :
    (start listenFailOS 0 mkDbgSrv idleV8).1 = false ∧
    get_port (start listenFailOS 0 mkDbgSrv idleV8).2.1 = 5000 ∧
    get_port (start listenFailOS 0 mkDbgSrv idleV8).2.1 ≠ 0 := by
  decide

/-- C8 (amended): `get_port()` returns the `dbgsrv_port_` field: 0 on a
freshly constructed bridge; after a successful `start(0)` the nonzero
OS-assigned ephemeral port recorded at bind time; still 0 when `start`
fails at bind or at getsockname (the field is never written on those
paths); but when `start` fails at listen, the port recorded at bind
time remains, so `get_port()` returns that nonzero bound port even
though the bridge is not listening. -/
theorem get_port_spec (os : NetOS)
    (hb : os.bindFails = false) (hg : os.getsocknameFails = false)
    (hl : os.listenFails = false) (hp : os.sockPort ≠ 0) :
    get_port mkDbgSrv = 0 ∧
    (start os 0 mkDbgSrv idleV8).1 = true ∧
    get_port (start os 0 mkDbgSrv idleV8).2.1 = os.sockPort ∧
    get_port (start os 0 mkDbgSrv idleV8).2.1 ≠ 0 ∧
    (∀ (os2 : NetOS) (p : Nat), os2.bindFails = true →
      get_port (start os2 p mkDbgSrv idleV8).2.1 = 0) ∧
    (∀ os3 : NetOS, os3.bindFails = false → os3.getsocknameFails = true →
      get_port (start os3 0 mkDbgSrv idleV8).2.1 = 0) ∧
    (∀ os4 : NetOS, os4.bindFails = false → os4.getsocknameFails = false →
      os4.listenFails = true →
      (start os4 0 mkDbgSrv idleV8).1 = false ∧
      get_port (start os4 0 mkDbgSrv idleV8).2.1 = os4.sockPort) := by
  refine ⟨rfl, ?_, ?_, ?_, ?_, ?_, ?_⟩
  · simp [start, hb, hg, hl]
  · simp [start, hb, hg, hl, get_port]
  · simp [start, hb, hg, hl, get_port, hp]
  · intro os2 p h2; simp [start, h2, get_port, mkDbgSrv]
  · intro os3 h3b h3g; simp [start, h3b, h3g, get_port, mkDbgSrv]
  · intro os4 h4b h4g h4l; simp [start, h4b, h4g, h4l, get_port]

/-- C8 witness: the amended statement at the concrete OS oracle that
assigns ephemeral port 5001 and succeeds throughout. -/
theorem get_port_spec_witness :
    get_port mkDbgSrv = 0 ∧
    (start (NetOS.mk false 5001 false false) 0 mkDbgSrv idleV8).1 = true ∧
    get_port (start (NetOS.mk false 5001 false false) 0 mkDbgSrv idleV8).2.1
      = 5001 := by
  have h := get_port_spec (NetOS.mk false 5001 false false) rfl rfl rfl
    (by decide)
  exact ⟨h.1, h.2.1, h.2.2.1⟩

/-- C9: when a read on the connected client socket reports an error
(negative `nread`), `DbgSrv::recv_from_socket_` closes the send-wake
handle and the client handle, moves the bridge from connected back to
started, and leaves the listening socket, the server loop and the
recorded port untouched; the `_V8` state is untouched (nothing is
forwarded). -/
theorem read_error_rollback (db : DbgSrvSt) (v : V8Dbg) (nread : Int)
    (data : String) (hneg : nread < 0)
    (_hconn : db.status_ = Status.dbgsrv_connected) :
    (recv_from_socket_ nread data db v).1.sendOpen = false ∧
    (recv_from_socket_ nread data db v).1.clntOpen = false ∧
    (recv_from_socket_ nread data db v).1.status_ = Status.dbgsrv_started ∧
    (recv_from_socket_ nread data db v).1.servOpen = db.servOpen ∧
    (recv_from_socket_ nread data db v).1.srvLoopInit = db.srvLoopInit ∧
    get_port (recv_from_socket_ nread data db v).1 = get_port db ∧
    (recv_from_socket_ nread data db v).2.1 = v := by
  have h0 : ¬ nread = 0 := by omega
  simp [recv_from_socket_, h0, hneg, get_port]

/-- C9 witness: the theorem at the concrete connected state and read
result -1. -/
theorem read_error_rollback_witness :
    (recv_from_socket_ (-1) "" connectedSt idleV8).1.sendOpen = false ∧
    (recv_from_socket_ (-1) "" connectedSt idleV8).1.clntOpen = false ∧
    (recv_from_socket_ (-1) "" connectedSt idleV8).1.status_
      = Status.dbgsrv_started ∧
    (recv_from_socket_ (-1) "" connectedSt idleV8).1.servOpen = true := by
  have h := read_error_rollback connectedSt idleV8 (-1) "" (by decide) rfl
  exact ⟨h.1, h.2.1, h.2.2.1, h.2.2.2.1⟩

/-- C10: safe destruction of a `DbgSrv` presupposes a successful
`start()`.  The destructor trace unconditionally signals the network
stop handle `dbgsrv_stop_` and joins the network thread
`dbgsrv_thread_`; the constructor initializes the processing loop but
leaves those two objects uninitialized; a failed `start` leaves them as
they were; only a successful `start` initializes them.  Hence a bridge
that was constructed but never successfully started reaches the
destructor with both objects uninitialized. -/
theorem unstarted_destructor_precondition :
    (Ev.async_send Handle.dbgsrv_stop ∈ destructorTrace ∧
     Ev.thread_join Handle.dbgsrv_thread ∈ destructorTrace) ∧
    (mkDbgSrv.srvStopInit = false ∧ mkDbgSrv.srvThreadInit = false ∧
     mkDbgSrv.procLoopInit = true ∧ mkDbgSrv.procProcInit = true ∧
     mkDbgSrv.procStopInit = true ∧ mkDbgSrv.procThreadInit = true) ∧
    (∀ (os : NetOS) (port : Nat) (db : DbgSrvSt) (v : V8Dbg),
      (start os port db v).1 = false →
      (start os port db v).2.1.srvStopInit = db.srvStopInit ∧
      (start os port db v).2.1.srvThreadInit = db.srvThreadInit) ∧
    (∀ (os : NetOS) (port : Nat) (db : DbgSrvSt) (v : V8Dbg),
      (start os port db v).1 = true →
      (start os port db v).2.1.srvStopInit = true ∧
      (start os port db v).2.1.srvThreadInit = true) := by
  refine ⟨⟨by simp [destructorTrace], by simp [destructorTrace]⟩,
    ⟨rfl, rfl, rfl, rfl, rfl, rfl⟩, ?_, ?_⟩
  · intro os port db v h
    by_cases hb : os.bindFails <;> by_cases hg : os.getsocknameFails <;>
      by_cases hl : os.listenFails <;> by_cases hp : port = 0 <;>
      simp [start, hb, hg, hl, hp] at h ⊢
  · intro os port db v h
    by_cases hb : os.bindFails <;> by_cases hg : os.getsocknameFails <;>
      by_cases hl : os.listenFails <;> by_cases hp : port = 0 <;>
      simp [start, hb, hg, hl, hp] at h ⊢

/-- C10 witness: the theorem applied at a bind-failing `start` on a
freshly constructed bridge — the two objects stay uninitialized. -/
theorem unstarted_destructor_precondition_witness :
    (start bindFailOS 0 mkDbgSrv idleV8).2.1.srvStopInit = false ∧
    (start bindFailOS 0 mkDbgSrv idleV8).2.1.srvThreadInit = false := by
  have h := unstarted_destructor_precondition.2.2.1 bindFailOS 0 mkDbgSrv
    idleV8 (by decide)
  exact ⟨h.1, h.2⟩

end v8eval
